import Mathlib

/-!
# plugin_load: metric derivation and threshold alerting

A shallow embedding of `plugin_load.go` (package `main`): the package-level
variables `PluginConfig`, `PluginData` and `NumCpus` become fields of an explicit
`State`, the three lifecycle functions `InitPlugin`, `PluginMeasure` and
`PluginAlert` become state-passing functions into `Except Panic`, where an error
is a Go run-time panic (failed type assertion, nil pointer dereference,
assignment to an entry of a nil map, duplicate collector registration).

Modelling conventions
* `float64` is `F64`: NaN, the two infinities, and finite values carried as
  rationals. Every arithmetic result and every conversion from `int` is rounded
  to the nearest binary64 value, ties to even, with gradual underflow and
  overflow to infinity (`F64.round`); comparison and division by zero follow
  IEEE-754. The sign of zero is not represented.
* `map[string]V` is `GoMap V`: the nil map, or an allocated map with a list of
  entries (the first occurrence of a key is the entry of that key).
* The results of the operating-system and library calls (`load.Avg`, `load.Misc`,
  `cpu.Times`, `time.Now`, `json.Marshal`, the JSON syntax check and decoder) are
  supplied through `Env`.
-/

namespace PluginLoad

/-! ## float64 -/

/-- Model of a Go `float64`: NaN, the infinities, and the finite values, each
carried as the rational it denotes. The arithmetic below rounds to binary64. -/
inductive F64 where
  | nan
  | ninf
  | fin (q : ℚ)
  | pinf
  deriving DecidableEq

/-- Round-to-nearest, ties-to-even, of the quotient `n / d` to a natural number. -/
def roundNearestEven (n d : Nat) : Nat :=
  let m := n / d
  let r := n % d
  if 2 * r < d then m else if d < 2 * r then m + 1 else if m % 2 = 0 then m else m + 1

/-- Number of binary digits of `n`, found by halving at most `fuel` times. -/
def bitLength : Nat → Nat → Nat
  | 0, _ => 0
  | fuel + 1, n => if n = 0 then 0 else bitLength fuel (n / 2) + 1

/-- Binary exponent of a positive quotient: the `e` with `2 ^ e ≤ n / d < 2 ^ (e + 1)`. -/
def binExp (n d : Nat) : Int :=
  let e0 : Int := (bitLength n n : Int) - (bitLength d d : Int)
  if 0 ≤ e0 then (if n < d * 2 ^ e0.toNat then e0 - 1 else e0)
  else (if n * 2 ^ (-e0).toNat < d then e0 - 1 else e0)

/-- Significand and exponent `(m, s)` of the binary64 value nearest to the positive
quotient `n / d`, which is `m * 2 ^ s`: 53 significant bits, the exponent of the
last bit not below `-1074`. -/
def roundParts (n d : Nat) : Nat × Int :=
  let e : Int := if binExp n d < -1022 then -1022 else binExp n d
  let s : Int := e - 52
  if 0 ≤ s then (roundNearestEven n (d * 2 ^ s.toNat), s)
  else (roundNearestEven (n * 2 ^ (-s).toNat) d, s)

/-- The rational `m * 2 ^ s`. -/
def scale2 (m : Nat) (s : Int) : ℚ :=
  if 0 ≤ s then ((m * 2 ^ s.toNat : Nat) : ℚ) else (m : ℚ) / ((2 ^ (-s).toNat : Nat) : ℚ)

namespace F64

/-- The binary64 value a real result `q` is rounded to: nearest, ties to even,
infinite when the rounded magnitude reaches `2 ^ 1024`. -/
def round (q : ℚ) : F64 :=
  if q = 0 then fin 0
  else
    let p := roundParts q.num.natAbs q.den
    let mag := scale2 p.1 p.2
    if ((2 ^ 1024 : Nat) : ℚ) ≤ mag then (if 0 < q then pinf else ninf)
    else fin (if 0 < q then mag else -mag)

/-- Conversion `float64(n)` of an `int`. -/
def ofInt (n : Int) : F64 := round n

/-- Go `a * b` on `float64`. -/
def mul : F64 → F64 → F64
  | nan, _ => nan
  | _, nan => nan
  | fin a, fin b => round (a * b)
  | fin a, pinf => if 0 < a then pinf else if a < 0 then ninf else nan
  | fin a, ninf => if 0 < a then ninf else if a < 0 then pinf else nan
  | pinf, fin b => if 0 < b then pinf else if b < 0 then ninf else nan
  | ninf, fin b => if 0 < b then ninf else if b < 0 then pinf else nan
  | pinf, pinf => pinf
  | ninf, ninf => pinf
  | pinf, ninf => ninf
  | ninf, pinf => ninf

/-- Go `a / b` on `float64`; a zero divisor is the positive zero. -/
def div : F64 → F64 → F64
  | nan, _ => nan
  | _, nan => nan
  | fin a, fin b =>
    if b = 0 then (if 0 < a then pinf else if a < 0 then ninf else nan)
    else round (a / b)
  | fin _, pinf => fin 0
  | fin _, ninf => fin 0
  | pinf, fin b => if b < 0 then ninf else pinf
  | ninf, fin b => if b < 0 then pinf else ninf
  | pinf, pinf => nan
  | pinf, ninf => nan
  | ninf, pinf => nan
  | ninf, ninf => nan

/-- Go `a < b` on `float64`: false whenever an operand is NaN. -/
def lt : F64 → F64 → Bool
  | nan, _ => false
  | _, nan => false
  | ninf, ninf => false
  | ninf, _ => true
  | fin _, ninf => false
  | fin a, fin b => decide (a < b)
  | fin _, pinf => true
  | pinf, _ => false

/-- Go `a > b` on `float64`. -/
def gt (a b : F64) : Bool := lt b a

/-- Go `a <= b` on `float64`: false whenever an operand is NaN. -/
def le : F64 → F64 → Bool
  | nan, _ => false
  | _, nan => false
  | ninf, _ => true
  | fin _, ninf => false
  | fin a, fin b => decide (a ≤ b)
  | fin _, pinf => true
  | pinf, pinf => true
  | pinf, _ => false

/-- Go `a >= b` on `float64`. -/
def ge (a b : F64) : Bool := le b a

end F64

/-! ## Values, maps, errors -/

/-- Struct `load.AvgStat` of gopsutil. -/
structure AvgStat where
  Load1 : F64
  Load5 : F64
  Load15 : F64

/-- Struct `load.MiscStat` of gopsutil. -/
structure MiscStat where
  ProcsRunning : Int
  ProcsBlocked : Int
  Ctxt : Int

/-- Element of the slice returned by `cpu.Times`; only the number of elements is read. -/
structure TimesStat where
  CPU : String

/-- A Go `interface{}` value, by dynamic type: the nil interface, the types
`PluginMeasure` stores, and the types the JSON decoder produces. -/
inductive Iface where
  | nil
  | float64 (x : F64)
  | avgStat (a : AvgStat)
  | miscStat (m : MiscStat)
  | bool (b : Bool)
  | string (s : String)
  | array (xs : List Iface)
  | object (kv : List (String × Iface))

instance : Inhabited Iface := ⟨Iface.nil⟩

/-- The run-time panics the program can raise. -/
inductive Panic where
  /-- dereference of a nil pointer -/
  | nilDereference
  /-- assignment to an entry of a nil map -/
  | nilMapAssign
  /-- failed type assertion on an interface value -/
  | interfaceConversion
  /-- collector registered twice with the metric registry -/
  | alreadyRegistered
  deriving DecidableEq

/-- Type assertion `v.(float64)`. -/
def Iface.assertFloat64 : Iface → Except Panic F64
  | Iface.float64 x => Except.ok x
  | _ => Except.error Panic.interfaceConversion

/-- Type assertion `v.(load.AvgStat)`. -/
def Iface.assertAvgStat : Iface → Except Panic AvgStat
  | Iface.avgStat a => Except.ok a
  | _ => Except.error Panic.interfaceConversion

/-- Pointer indirection `*p`, the pointer being `none` when nil. -/
def deref {α : Type} : Option α → Except Panic α
  | some a => Except.ok a
  | none => Except.error Panic.nilDereference

/-- Entry lookup in the entries of an allocated map. -/
def getEntry {V : Type} (k : String) : List (String × V) → Option V
  | [] => none
  | (k1, v1) :: t => if k1 = k then some v1 else getEntry k t

/-- Entry update in the entries of an allocated map. -/
def setEntry {V : Type} (k : String) (v : V) : List (String × V) → List (String × V)
  | [] => [(k, v)]
  | (k1, v1) :: t => if k1 = k then (k, v) :: t else (k1, v1) :: setEntry k v t

/-- A Go `map[string]V`: the nil map, or an allocated map with its entries. -/
inductive GoMap (V : Type) where
  | nil
  | mk (entries : List (String × V))

instance {V : Type} : Inhabited (GoMap V) := ⟨GoMap.nil⟩

/-- Index expression `m[k]` read: the zero value of `V` when the key is absent
or the map is nil. -/
def GoMap.index {V : Type} [Inhabited V] (m : GoMap V) (k : String) : V :=
  match m with
  | GoMap.nil => default
  | GoMap.mk l => (getEntry k l).getD default

/-- Assignment `m[k] = v`; it panics on a nil map. -/
def GoMap.assign {V : Type} (m : GoMap V) (k : String) (v : V) : Except Panic (GoMap V) :=
  match m with
  | GoMap.nil => Except.error Panic.nilMapAssign
  | GoMap.mk l => Except.ok (GoMap.mk (setEntry k v l))

/-- Comparison `m == nil`. -/
def GoMap.isNil {V : Type} : GoMap V → Bool
  | GoMap.nil => true
  | GoMap.mk _ => false

/-- A Go `error`: nil, or the value built by `errors.New`. -/
inductive GoError where
  | nil
  | new (text : String)
  deriving DecidableEq

abbrev Bytes := List UInt8

/-! ## Program state and environment -/

/-- The package-level variables, the values of the `loadIndicator` gauge family
by `use` label, the names of the collectors registered with the default
registry, and the log records written. -/
structure State where
  PluginConfig : GoMap (GoMap (GoMap Iface))
  PluginData : GoMap Iface
  NumCpus : Int
  loadIndicator : List (String × F64)
  registered : List String
  logged : List (String × String)

/-- The state at program start: both maps nil, `NumCpus = 1`. -/
def State.start : State :=
  { PluginConfig := GoMap.nil, PluginData := GoMap.nil, NumCpus := 1,
    loadIndicator := [], registered := [], logged := [] }

/-- Results of the calls into the operating system and the libraries. -/
structure Env where
  /-- pointer returned by `load.Avg()`, `none` when nil -/
  loadAvg : Option AvgStat
  /-- pointer returned by `load.Misc()`, `none` when nil -/
  loadMisc : Option MiscStat
  /-- slice returned by `cpu.Times(true)` -/
  cpuTimes : List TimesStat
  /-- value of `time.Now().UnixNano()` -/
  now : Int
  /-- result of `json.Marshal` on the data map, `none` on error -/
  jsonMarshal : GoMap Iface → Option Bytes
  /-- the well-formedness scan `json.Unmarshal` runs over the whole input first -/
  jsonValid : String → Bool
  /-- the decoder run on well-formed input: the new target and whether an error is returned -/
  jsonDecode : String → GoMap (GoMap (GoMap Iface)) → GoMap (GoMap (GoMap Iface)) × Bool

/-- Call `json.Unmarshal(text, &target)`: a syntax error is reported before
anything is stored into the target. The Boolean is `err != nil`. -/
def jsonUnmarshal (env : Env) (text : String) (target : GoMap (GoMap (GoMap Iface))) :
    GoMap (GoMap (GoMap Iface)) × Bool :=
  if env.jsonValid text then env.jsonDecode text target else (target, true)

/-- Call `prometheus.MustRegister(c)` for the collector named `name`: panics when
that collector is already registered. -/
def MustRegister (name : String) (st : State) : Except Panic State :=
  if name ∈ st.registered then Except.error Panic.alreadyRegistered
  else Except.ok { st with registered := name :: st.registered }

/-- Call `loadIndicator.With(prometheus.Labels{"use": label}).Set(x)`. -/
def gaugeSet (label : String) (x : F64) (st : State) : State :=
  { st with loadIndicator := setEntry label x st.loadIndicator }

/-! ## The lifecycle functions -/

/-- Go function `PluginMeasure`. -/
def PluginMeasure (env : Env) (st : State) :
    Except Panic ((Bytes × Bytes × F64) × State) := do
  let lavg := env.loadAvg
  let lmsc := env.loadMisc
  let a ← deref lavg
  let d ← st.PluginData.assign "loadaverage" (Iface.avgStat a)
  let m ← deref lmsc
  let d ← d.assign "loadstats" (Iface.miscStat m)
  let s1 ← (d.index "loadaverage").assertAvgStat
  let d ← d.assign "load1m"
    (Iface.float64 (F64.div (F64.mul (F64.fin 100) s1.Load1) (F64.ofInt st.NumCpus)))
  let s5 ← (d.index "loadaverage").assertAvgStat
  let d ← d.assign "load5m"
    (Iface.float64 (F64.div (F64.mul (F64.fin 100) s5.Load5) (F64.ofInt st.NumCpus)))
  let s15 ← (d.index "loadaverage").assertAvgStat
  let d ← d.assign "load15m"
    (Iface.float64 (F64.div (F64.mul (F64.fin 100) s15.Load15) (F64.ofInt st.NumCpus)))
  let d ← d.assign "use" (d.index "load1m")
  let d ← d.assign "load" (d.index "load1m")
  let d ← d.assign "latency" (Iface.float64 (F64.fin 0))
  let d ← d.assign "throughput" (d.index "load1m")
  let d ← d.assign "throughputmax" (Iface.float64 (F64.fin 100))
  let d ← d.assign "saturation" (d.index "load1m")
  let d ← d.assign "errors" (Iface.float64 (F64.fin 0))
  let st := { st with PluginData := d }
  let st := gaugeSet "load1m" (← (d.index "load1m").assertFloat64) st
  let st := gaugeSet "load5m" (← (d.index "load5m").assertFloat64) st
  let st := gaugeSet "load15m" (← (d.index "load15m").assertFloat64) st
  let st := gaugeSet "utilization" (← (d.index "use").assertFloat64) st
  let st := gaugeSet "saturation" (← (d.index "saturation").assertFloat64) st
  let st := gaugeSet "throughput" (← (d.index "throughput").assertFloat64) st
  let st := gaugeSet "errors" (← (d.index "errors").assertFloat64) st
  let myMeasure := (env.jsonMarshal d).getD []
  pure ((myMeasure, [], F64.div (F64.ofInt env.now) (F64.fin 1000000000)), st)

/-- The four values `PluginAlert` returns. -/
structure Verdict where
  alertMsg : String
  alertLvl : String
  alertFlag : Bool
  alertErr : GoError
  deriving DecidableEq

/-- Expression `PluginData["load"].(float64)`. -/
def dataLoad (st : State) : Except Panic F64 :=
  (st.PluginData.index "load").assertFloat64

/-- Expression `PluginConfig["alert"]["load"][bound].(float64)`. -/
def threshold (st : State) (bound : String) : Except Panic F64 :=
  (((st.PluginConfig.index "alert").index "load").index bound).assertFloat64

/-- Go function `PluginAlert`. The switch evaluates its case expressions in
order and stops at the first true one. -/
def PluginAlert (_measure : Bytes) (st : State) : Except Panic (Verdict × State) := do
  let alertMsg := ""
  let alertLvl := ""
  let alertFlag := false
  let alertErr := GoError.new ""
  if F64.lt (← dataLoad st) (← threshold st "low") then
    let alertLvl := "warn"
    let alertMsg := alertMsg ++ "Overall LOAD below low design point "
    let alertFlag := true
    let alertErr := GoError.new "low load"
    pure (⟨alertMsg, alertLvl, alertFlag, alertErr⟩, st)
  else if F64.gt (← dataLoad st) (← threshold st "engineered") then
    let alertLvl := "fatal"
    let alertMsg := alertMsg ++ "Overall LOAD above engineered point "
    let alertFlag := true
    let alertErr := GoError.new "excessive load"
    pure (⟨alertMsg, alertLvl, alertFlag, alertErr⟩, st)
  else if F64.gt (← dataLoad st) (← threshold st "design") then
    let alertLvl := "warn"
    let alertMsg := alertMsg ++ "Overall LOAD above design point "
    let alertFlag := true
    let alertErr := GoError.new "moderately high load"
    pure (⟨alertMsg, alertLvl, alertFlag, alertErr⟩, st)
  else
    pure (⟨alertMsg, alertLvl, alertFlag, alertErr⟩, st)

/-- Go function `InitPlugin`. -/
def InitPlugin (env : Env) (config : String) (st : State) : Except Panic State := do
  let st := if st.PluginData.isNil then { st with PluginData := GoMap.mk [] } else st
  let st := if st.PluginConfig.isNil then { st with PluginConfig := GoMap.mk [] } else st
  let st ← MustRegister "sreagent_load_metrics" st
  let st ← MustRegister "sreagent_load_average" st
  let initcpu := env.cpuTimes
  let st := { st with NumCpus := initcpu.length }
  let (cfg, err) := jsonUnmarshal env config st.PluginConfig
  let st := { st with PluginConfig := cfg }
  let st := if err then
      { st with logged := st.logged ++ [("error", "failed to unmarshal config")] }
    else st
  pure { st with logged := st.logged ++ [("info", "InitPlugin")] }

/-! ## Concrete states -/

/-- The configuration `main` passes to `InitPlugin`, as the JSON decoder stores it:
`low = 2`, `design = 60`, `engineered = 80`. -/
def mainConfig : GoMap (GoMap (GoMap Iface)) :=
  GoMap.mk [("alert", GoMap.mk [("load", GoMap.mk
    [("low", Iface.float64 (F64.fin 2)),
     ("design", Iface.float64 (F64.fin 60)),
     ("engineered", Iface.float64 (F64.fin 80))])])]

/-- A state after initialisation with `mainConfig` on a four-core host, whose
data map holds `load = x` only. -/
def stateWithLoad (x : ℚ) : State :=
  { PluginConfig := mainConfig, PluginData := GoMap.mk [("load", Iface.float64 (F64.fin x))],
    NumCpus := 4, loadIndicator := [],
    registered := ["sreagent_load_average", "sreagent_load_metrics"], logged := [] }

/-- A state with the configuration of `main` whose data map holds a whole snapshot
with `load = x`, on an eight-core host. -/
def stateWithSnapshot (x : ℚ) : State :=
  { PluginConfig := mainConfig,
    PluginData := GoMap.mk [("load1m", Iface.float64 (F64.fin x)),
      ("load5m", Iface.float64 (F64.fin 1)), ("load", Iface.float64 (F64.fin x)),
      ("errors", Iface.float64 (F64.fin 0))],
    NumCpus := 8, loadIndicator := [("load1m", F64.fin x)],
    registered := ["sreagent_load_average", "sreagent_load_metrics"],
    logged := [("info", "InitPlugin")] }

/-- The text of the configuration in `main`, without its white space. -/
def mainConfigText : String :=
  "\x7b\"alert\":\x7b\"load\":\x7b\"low\":2,\"design\":60.0,\"engineered\":80.0\x7d\x7d\x7d"

/-- An environment for the examples: the sampled load averages are `avg`, the CPU
enumeration has `cpus` entries, and the JSON functions accept `mainConfigText`
only, decoding it to `mainConfig`. -/
def exampleEnv (avg : Option AvgStat) (cpus : Nat) : Env :=
  { loadAvg := avg,
    loadMisc := some ⟨1, 0, 0⟩,
    cpuTimes := List.replicate cpus ⟨"cpu"⟩,
    now := 0,
    jsonMarshal := fun _ => none,
    jsonValid := fun text => decide (text = mainConfigText),
    jsonDecode := fun _ _ => (mainConfig, false) }

/-- The state `InitPlugin` reaches from `State.start` with `mainConfigText` on a
host whose CPU enumeration has `cpus` entries. -/
def initState (cpus : Nat) : State :=
  { PluginConfig := mainConfig, PluginData := GoMap.mk [], NumCpus := cpus,
    loadIndicator := [],
    registered := ["sreagent_load_average", "sreagent_load_metrics"],
    logged := [("info", "InitPlugin")] }

/-! ## Closed form of the measured snapshot -/

/-- The data map `PluginMeasure` leaves behind, entry by entry in the order of
the assignments, for a sample `a`, statistics `m`, core count `n` and previous
entries `l`. -/
def measuredEntries (a : AvgStat) (m : MiscStat) (n : Int) (l : List (String × Iface)) :
    List (String × Iface) :=
  let x1 := Iface.float64 (F64.div (F64.mul (F64.fin 100) a.Load1) (F64.ofInt n))
  let x5 := Iface.float64 (F64.div (F64.mul (F64.fin 100) a.Load5) (F64.ofInt n))
  let x15 := Iface.float64 (F64.div (F64.mul (F64.fin 100) a.Load15) (F64.ofInt n))
  setEntry "errors" (Iface.float64 (F64.fin 0))
  (setEntry "saturation" x1
  (setEntry "throughputmax" (Iface.float64 (F64.fin 100))
  (setEntry "throughput" x1
  (setEntry "latency" (Iface.float64 (F64.fin 0))
  (setEntry "load" x1
  (setEntry "use" x1
  (setEntry "load15m" x15
  (setEntry "load5m" x5
  (setEntry "load1m" x1
  (setEntry "loadstats" (Iface.miscStat m)
  (setEntry "loadaverage" (Iface.avgStat a) l)))))))))))

/-- The gauge values `PluginMeasure` leaves behind, for a sample `a`, core count
`n` and previous values `g`. -/
def measuredGauges (a : AvgStat) (n : Int) (g : List (String × F64)) : List (String × F64) :=
  let x1 := F64.div (F64.mul (F64.fin 100) a.Load1) (F64.ofInt n)
  let x5 := F64.div (F64.mul (F64.fin 100) a.Load5) (F64.ofInt n)
  let x15 := F64.div (F64.mul (F64.fin 100) a.Load15) (F64.ofInt n)
  setEntry "errors" (F64.fin 0)
  (setEntry "throughput" x1
  (setEntry "saturation" x1
  (setEntry "utilization" x1
  (setEntry "load15m" x15
  (setEntry "load5m" x5
  (setEntry "load1m" x1 g))))))

/-! ## Lemmas on maps and comparisons -/

/-- Reading the key just written gives the value written. -/
theorem getEntry_setEntry_self {V : Type} (k : String) (v : V) (l : List (String × V)) :
    getEntry k (setEntry k v l) = some v := by
  induction l with
  | nil => simp [setEntry, getEntry]
  | cons hd tl ih =>
    obtain ⟨k1, v1⟩ := hd
    by_cases h : k1 = k
    · simp [setEntry, getEntry, h]
    · simp [setEntry, getEntry, h, ih]

/-- Writing a key leaves the entries of the other keys as they were. -/
theorem getEntry_setEntry_ne {V : Type} (k k2 : String) (v : V) (l : List (String × V))
    (hne : k ≠ k2) : getEntry k2 (setEntry k v l) = getEntry k2 l := by
  induction l with
  | nil => simp [setEntry, getEntry, hne]
  | cons hd tl ih =>
    obtain ⟨k1, v1⟩ := hd
    by_cases h : k1 = k
    · subst h
      simp [setEntry, getEntry, hne]
    · by_cases h2 : k1 = k2
      · simp [setEntry, getEntry, h, h2]
        rw [if_neg (h2 ▸ h)]
        simp [getEntry]
      · simp [setEntry, getEntry, h, h2, ih]

/-- On `float64`, `a <= b` excludes `b < a`. -/
theorem F64.lt_eq_false_of_le (a b : F64) (h : F64.le a b = true) : F64.lt b a = false := by
  cases a <;> cases b <;> simp_all [F64.le, F64.lt]

/-- For a negative exponent, `scale2 m (-k)` is the fraction `m / 2 ^ k`. -/
theorem scale2_neg (m k : Nat) (hk : 0 < k) : scale2 m (-(k : Int)) = (m : ℚ) / 2 ^ k := by
  have h1 : ¬ (0 : Int) ≤ -(k : Int) := by omega
  simp [scale2, h1]

/-- Evaluation of `F64.round` at a positive rational `q = a / b` in lowest terms,
from the significand `m` and the exponent `-k` that `roundParts` computes: the
result is the finite value `r = m / 2 ^ k` when that is below `2 ^ 1024`. -/
theorem F64.round_eval (q r : ℚ) (a b m k : Nat) (hq : q = (a : ℚ) / (b : ℚ))
    (ha : 0 < a) (hb : 0 < b) (hcop : Nat.Coprime a b) (hk : 0 < k)
    (hp : roundParts a b = (m, -(k : Int)))
    (hr : (m : ℚ) / 2 ^ k = r) (hfin : r < ((2 ^ 1024 : Nat) : ℚ)) :
    F64.round q = F64.fin r := by
  subst hq
  have hs : scale2 m (-(k : Int)) = r := by rw [scale2_neg m k hk, hr]
  have hpos : (0 : ℚ) < (a : ℚ) / (b : ℚ) := by positivity
  have hnum : ((a : ℚ) / (b : ℚ)).num = (a : Int) := by
    have h := Rat.num_div_eq_of_coprime (a := (a : Int)) (b := (b : Int))
      (by exact_mod_cast hb) (by simpa using hcop)
    simpa using h
  have hden : ((a : ℚ) / (b : ℚ)).den = b := by
    have h := Rat.den_div_eq_of_coprime (a := (a : Int)) (b := (b : Int))
      (by exact_mod_cast hb) (by simpa using hcop)
    have h2 : ((((a : Int) : ℚ) / ((b : Int) : ℚ)).den : Int) = ((b : Nat) : Int) := h
    have h3 : (((a : Int) : ℚ) / ((b : Int) : ℚ)).den = b := by exact_mod_cast h2
    simpa using h3
  unfold F64.round
  rw [if_neg (ne_of_gt hpos)]
  simp only [hnum, hden, Int.natAbs_ofNat, hp, hs, if_pos hpos, if_neg (not_le.mpr hfin)]

/-- After `m[k] = v`, the expression `m[k]` is `v`. -/
theorem GoMap.index_assign_self {V : Type} [Inhabited V] (k : String) (v : V)
    (l : List (String × V)) : (GoMap.mk (setEntry k v l)).index k = v := by
  simp [GoMap.index, getEntry_setEntry_self]

/-- After `m[k] = v`, the expression `m[k2]` for another key is as before. -/
theorem GoMap.index_assign_ne {V : Type} [Inhabited V] (k k2 : String) (v : V)
    (l : List (String × V)) (hne : k ≠ k2) :
    (GoMap.mk (setEntry k v l)).index k2 = (GoMap.mk l).index k2 := by
  simp [GoMap.index, getEntry_setEntry_ne k k2 v l hne]

/-- With a sample, the statistics and an allocated data map, `PluginMeasure`
returns; the data map it leaves is `measuredEntries`, the gauges are
`measuredGauges`, and nothing else changes. -/
theorem PluginMeasure_data (env : Env) (st : State) (a : AvgStat) (m : MiscStat)
    (l : List (String × Iface))
    (ha : env.loadAvg = some a) (hm : env.loadMisc = some m)
    (hd : st.PluginData = GoMap.mk l) :
    PluginMeasure env st = Except.ok
      (((env.jsonMarshal (GoMap.mk (measuredEntries a m st.NumCpus l))).getD [], [],
        F64.div (F64.ofInt env.now) (F64.fin 1000000000)),
       { st with PluginData := GoMap.mk (measuredEntries a m st.NumCpus l),
                 loadIndicator := measuredGauges a st.NumCpus st.loadIndicator }) := by
  simp [PluginMeasure, ha, hm, hd, deref, GoMap.assign, GoMap.index_assign_self,
    GoMap.index_assign_ne, Iface.assertAvgStat, Iface.assertFloat64, bind, Except.bind,
    pure, Except.pure, gaugeSet, measuredEntries, measuredGauges]

/-- The lookups in the data map `PluginMeasure` leaves behind. -/
theorem measuredEntries_index (a : AvgStat) (m : MiscStat) (n : Int)
    (l : List (String × Iface)) :
    (GoMap.mk (measuredEntries a m n l)).index "load1m" =
        Iface.float64 (F64.div (F64.mul (F64.fin 100) a.Load1) (F64.ofInt n)) ∧
    (GoMap.mk (measuredEntries a m n l)).index "load5m" =
        Iface.float64 (F64.div (F64.mul (F64.fin 100) a.Load5) (F64.ofInt n)) ∧
    (GoMap.mk (measuredEntries a m n l)).index "load15m" =
        Iface.float64 (F64.div (F64.mul (F64.fin 100) a.Load15) (F64.ofInt n)) ∧
    (GoMap.mk (measuredEntries a m n l)).index "use" =
        Iface.float64 (F64.div (F64.mul (F64.fin 100) a.Load1) (F64.ofInt n)) ∧
    (GoMap.mk (measuredEntries a m n l)).index "load" =
        Iface.float64 (F64.div (F64.mul (F64.fin 100) a.Load1) (F64.ofInt n)) ∧
    (GoMap.mk (measuredEntries a m n l)).index "saturation" =
        Iface.float64 (F64.div (F64.mul (F64.fin 100) a.Load1) (F64.ofInt n)) ∧
    (GoMap.mk (measuredEntries a m n l)).index "throughput" =
        Iface.float64 (F64.div (F64.mul (F64.fin 100) a.Load1) (F64.ofInt n)) ∧
    (GoMap.mk (measuredEntries a m n l)).index "throughputmax" = Iface.float64 (F64.fin 100) ∧
    (GoMap.mk (measuredEntries a m n l)).index "errors" = Iface.float64 (F64.fin 0) ∧
    (GoMap.mk (measuredEntries a m n l)).index "latency" = Iface.float64 (F64.fin 0) := by
  simp [measuredEntries, GoMap.index_assign_self, GoMap.index_assign_ne]

/-! ## PluginAlert -/

/-- C1. Low-load rule and its priority: whenever the snapshot load is below the
configured `low` threshold, whatever the `design` and `engineered` entries are
(any value, in any order, or absent), `PluginAlert` returns level "warn", flag
true and the cause "low load", and so neither of the two high-load causes. -/
theorem PluginAlert_low_load (measure : Bytes) (st : State) (x l : F64)
    (hload : dataLoad st = Except.ok x) (hlow : threshold st "low" = Except.ok l)
    (h : F64.lt x l = true) :
    ∃ v : Verdict, PluginAlert measure st = Except.ok (v, st) ∧
      v.alertMsg = "Overall LOAD below low design point " ∧
      v.alertLvl = "warn" ∧ v.alertFlag = true ∧ v.alertErr = GoError.new "low load" ∧
      v.alertLvl ≠ "fatal" ∧ v.alertErr ≠ GoError.new "excessive load" ∧
      v.alertErr ≠ GoError.new "moderately high load" := by
  refine ⟨⟨"Overall LOAD below low design point ", "warn", true, GoError.new "low load"⟩,
    ?_, rfl, rfl, rfl, rfl, by decide, by decide, by decide⟩
  simp [PluginAlert, hload, hlow, h, bind, Except.bind, pure, Except.pure]

theorem PluginAlert_low_load_witness :
    dataLoad (stateWithLoad (3 / 2)) = Except.ok (F64.fin (3 / 2)) ∧
    threshold (stateWithLoad (3 / 2)) "low" = Except.ok (F64.fin 2) ∧
    F64.lt (F64.fin (3 / 2)) (F64.fin 2) = true ∧
    ∃ v : Verdict, PluginAlert [] (stateWithLoad (3 / 2)) = Except.ok (v, stateWithLoad (3 / 2)) ∧
      v.alertMsg = "Overall LOAD below low design point " ∧
      v.alertLvl = "warn" ∧ v.alertFlag = true ∧ v.alertErr = GoError.new "low load" ∧
      v.alertLvl ≠ "fatal" ∧ v.alertErr ≠ GoError.new "excessive load" ∧
      v.alertErr ≠ GoError.new "moderately high load" :=
  have h1 : dataLoad (stateWithLoad (3 / 2)) = Except.ok (F64.fin (3 / 2)) := by
    simp [dataLoad, stateWithLoad, GoMap.index, getEntry, Iface.assertFloat64]
  have h2 : threshold (stateWithLoad (3 / 2)) "low" = Except.ok (F64.fin 2) := by
    simp [threshold, stateWithLoad, mainConfig, GoMap.index, getEntry, Iface.assertFloat64]
  have h3 : F64.lt (F64.fin (3 / 2)) (F64.fin 2) = true := by
    simp [F64.lt]; norm_num
  ⟨h1, h2, h3, PluginAlert_low_load [] (stateWithLoad (3 / 2)) (F64.fin (3 / 2)) (F64.fin 2) h1 h2 h3⟩

/-- C2. Engineered rule with short-circuit: whenever the snapshot load is at least
`low` and above `engineered`, `PluginAlert` returns level "fatal", flag true and
the cause "excessive load". The outcome `d` of the `design` lookup is arbitrary
(any number, also one below the load, or a failed lookup): it is never consulted. -/
theorem PluginAlert_engineered (measure : Bytes) (st : State) (x l e : F64)
    (d : Except Panic F64)
    (hload : dataLoad st = Except.ok x) (hlow : threshold st "low" = Except.ok l)
    (heng : threshold st "engineered" = Except.ok e) (_hdesign : threshold st "design" = d)
    (h1 : F64.ge x l = true) (h2 : F64.gt x e = true) :
    PluginAlert measure st =
      Except.ok (⟨"Overall LOAD above engineered point ", "fatal", true,
        GoError.new "excessive load"⟩, st) := by
  have hl : F64.lt x l = false := F64.lt_eq_false_of_le l x h1
  simp [PluginAlert, hload, hlow, heng, hl, h2, bind, Except.bind, pure, Except.pure]

theorem PluginAlert_engineered_witness :
    F64.gt (F64.fin 90) (F64.fin 60) = true ∧
    PluginAlert [] (stateWithLoad 90) =
      Except.ok (⟨"Overall LOAD above engineered point ", "fatal", true,
        GoError.new "excessive load"⟩, stateWithLoad 90) :=
  ⟨by simp [F64.gt, F64.lt]; norm_num,
   PluginAlert_engineered [] (stateWithLoad 90) (F64.fin 90) (F64.fin 2) (F64.fin 80)
    (Except.ok (F64.fin 60))
    (by simp [dataLoad, stateWithLoad, GoMap.index, getEntry, Iface.assertFloat64])
    (by simp [threshold, stateWithLoad, mainConfig, GoMap.index, getEntry, Iface.assertFloat64])
    (by simp [threshold, stateWithLoad, mainConfig, GoMap.index, getEntry, Iface.assertFloat64])
    (by simp [threshold, stateWithLoad, mainConfig, GoMap.index, getEntry, Iface.assertFloat64])
    (by simp [F64.ge, F64.le]; norm_num)
    (by simp [F64.gt, F64.lt]; norm_num)⟩

/-- C3. Design rule: whenever the snapshot load is at least `low`, at most
`engineered` and above `design`, `PluginAlert` returns level "warn", flag true and
the cause "moderately high load". -/
theorem PluginAlert_design (measure : Bytes) (st : State) (x l d e : F64)
    (hload : dataLoad st = Except.ok x) (hlow : threshold st "low" = Except.ok l)
    (hdesign : threshold st "design" = Except.ok d)
    (heng : threshold st "engineered" = Except.ok e)
    (h1 : F64.ge x l = true) (h2 : F64.le x e = true) (h3 : F64.gt x d = true) :
    PluginAlert measure st =
      Except.ok (⟨"Overall LOAD above design point ", "warn", true,
        GoError.new "moderately high load"⟩, st) := by
  have hl : F64.lt x l = false := F64.lt_eq_false_of_le l x h1
  have he : F64.gt x e = false := F64.lt_eq_false_of_le x e h2
  simp [PluginAlert, hload, hlow, heng, hdesign, hl, he, h3, bind, Except.bind, pure,
    Except.pure]

theorem PluginAlert_design_witness :
    PluginAlert [] (stateWithLoad 70) =
      Except.ok (⟨"Overall LOAD above design point ", "warn", true,
        GoError.new "moderately high load"⟩, stateWithLoad 70) :=
  PluginAlert_design [] (stateWithLoad 70) (F64.fin 70) (F64.fin 2) (F64.fin 60) (F64.fin 80)
    (by simp [dataLoad, stateWithLoad, GoMap.index, getEntry, Iface.assertFloat64])
    (by simp [threshold, stateWithLoad, mainConfig, GoMap.index, getEntry, Iface.assertFloat64])
    (by simp [threshold, stateWithLoad, mainConfig, GoMap.index, getEntry, Iface.assertFloat64])
    (by simp [threshold, stateWithLoad, mainConfig, GoMap.index, getEntry, Iface.assertFloat64])
    (by simp [F64.ge, F64.le]; norm_num)
    (by simp [F64.le]; norm_num)
    (by simp [F64.gt, F64.lt]; norm_num)

/-- C4, as stated, fails: at load 10 with the thresholds of `main` (2, 60, 80) no
rule fires, and the cause returned is the error value built by `errors.New("")`,
not the nil error. -/
theorem PluginAlert_no_alert_cause_not_nil :
    (F64.ge (F64.fin 10) (F64.fin 2) = true ∧ F64.le (F64.fin 10) (F64.fin 80) = true ∧
      F64.le (F64.fin 10) (F64.fin 60) = true) ∧
    PluginAlert [] (stateWithLoad 10) =
      Except.ok (⟨"", "", false, GoError.new ""⟩, stateWithLoad 10) ∧
    ¬ ∃ (v : Verdict) (s : State),
      PluginAlert [] (stateWithLoad 10) = Except.ok (v, s) ∧ v.alertErr = GoError.nil := by
  have hrun : PluginAlert [] (stateWithLoad 10) =
      Except.ok (⟨"", "", false, GoError.new ""⟩, stateWithLoad 10) := rfl
  refine ⟨⟨?_, ?_, ?_⟩, hrun, ?_⟩
  · simp [F64.ge, F64.le]; norm_num
  · simp [F64.le]; norm_num
  · simp [F64.le]; norm_num
  · rintro ⟨v, s, hv, herr⟩
    rw [hrun] at hv
    injection hv with hv
    injection hv with hv1 hv2
    subst hv1
    exact GoError.noConfusion herr

/-- C4, amended. No-alert rule: whenever the snapshot load is at least `low`, at
most `engineered` and at most `design`, `PluginAlert` returns the empty message,
the empty level, flag false, and as cause the non-nil error value with empty
text that `errors.New("")` builds. -/
theorem PluginAlert_no_alert (measure : Bytes) (st : State) (x l d e : F64)
    (hload : dataLoad st = Except.ok x) (hlow : threshold st "low" = Except.ok l)
    (hdesign : threshold st "design" = Except.ok d)
    (heng : threshold st "engineered" = Except.ok e)
    (h1 : F64.ge x l = true) (h2 : F64.le x e = true) (h3 : F64.le x d = true) :
    PluginAlert measure st = Except.ok (⟨"", "", false, GoError.new ""⟩, st) ∧
      GoError.new "" ≠ GoError.nil := by
  have hl : F64.lt x l = false := F64.lt_eq_false_of_le l x h1
  have he : F64.gt x e = false := F64.lt_eq_false_of_le x e h2
  have hd : F64.gt x d = false := F64.lt_eq_false_of_le x d h3
  refine ⟨?_, by decide⟩
  simp [PluginAlert, hload, hlow, heng, hdesign, hl, he, hd, bind, Except.bind, pure,
    Except.pure]

theorem PluginAlert_no_alert_witness :
    PluginAlert [] (stateWithLoad 10) =
        Except.ok (⟨"", "", false, GoError.new ""⟩, stateWithLoad 10) ∧
      GoError.new "" ≠ GoError.nil :=
  PluginAlert_no_alert [] (stateWithLoad 10) (F64.fin 10) (F64.fin 2) (F64.fin 60) (F64.fin 80)
    (by simp [dataLoad, stateWithLoad, GoMap.index, getEntry, Iface.assertFloat64])
    (by simp [threshold, stateWithLoad, mainConfig, GoMap.index, getEntry, Iface.assertFloat64])
    (by simp [threshold, stateWithLoad, mainConfig, GoMap.index, getEntry, Iface.assertFloat64])
    (by simp [threshold, stateWithLoad, mainConfig, GoMap.index, getEntry, Iface.assertFloat64])
    (by simp [F64.ge, F64.le]; norm_num)
    (by simp [F64.le]; norm_num)
    (by simp [F64.le]; norm_num)

/-- C9. `PluginAlert` ignores its argument: from any state, two calls with
different byte strings have the same outcome (the same verdict, or the same
panic); a call that returns leaves the state as it was; and two states that
agree on the `load` entry of the data map and on the three `load` thresholds
give the same verdict, whatever else they hold. -/
theorem PluginAlert_ignores_measure (st : State) (m1 m2 : Bytes) :
    PluginAlert m1 st = PluginAlert m2 st ∧
    (∀ (v : Verdict) (s : State), PluginAlert m1 st = Except.ok (v, s) → s = st) ∧
    (∀ st2 : State, dataLoad st2 = dataLoad st →
      (∀ bound : String, threshold st2 bound = threshold st bound) →
      (PluginAlert m1 st2).map Prod.fst = (PluginAlert m2 st).map Prod.fst) := by
  refine ⟨rfl, ?_, ?_⟩
  · intro v s h
    simp only [PluginAlert, bind, Except.bind, pure, Except.pure] at h
    rcases hx : dataLoad st with ex | x <;> rw [hx] at h <;> simp at h
    rcases hl : threshold st "low" with el | l <;> rw [hl] at h <;> simp at h
    split at h
    · simp at h; exact h.2.symm
    · rcases he : threshold st "engineered" with ee | e <;> rw [he] at h <;> simp at h
      split at h
      · simp at h; exact h.2.symm
      · rcases hd : threshold st "design" with ed | d <;> rw [hd] at h <;> simp at h
        split at h <;> simp at h <;> exact h.2.symm
  · intro st2 hload hthr
    simp only [PluginAlert, bind, Except.bind, pure, Except.pure, hload, hthr]
    rcases dataLoad st with ex | x
    · rfl
    rcases threshold st "low" with el | l
    · rfl
    dsimp only
    by_cases hl : F64.lt x l = true
    · rw [if_pos hl, if_pos hl]; rfl
    rw [if_neg hl, if_neg hl]
    rcases threshold st "engineered" with ee | e
    · rfl
    dsimp only
    by_cases he : F64.gt x e = true
    · rw [if_pos he, if_pos he]; rfl
    rw [if_neg he, if_neg he]
    rcases threshold st "design" with ed | d
    · rfl
    dsimp only
    by_cases hd : F64.gt x d = true
    · rw [if_pos hd, if_pos hd]; rfl
    · rw [if_neg hd, if_neg hd]; rfl

theorem PluginAlert_ignores_measure_witness :
    PluginAlert [1] (stateWithLoad 90) = PluginAlert [] (stateWithLoad 90) ∧
    (PluginAlert [1] (stateWithSnapshot 90)).map Prod.fst =
      (PluginAlert [] (stateWithLoad 90)).map Prod.fst :=
  ⟨(PluginAlert_ignores_measure (stateWithLoad 90) [1] []).1,
   (PluginAlert_ignores_measure (stateWithLoad 90) [1] []).2.2 (stateWithSnapshot 90)
    (by rfl) (fun _ => rfl)⟩

/-! ## PluginMeasure -/

/-- From the start state, `InitPlugin` with the configuration text of `main`
reaches `initState`, whose `NumCpus` is the length of the CPU enumeration. -/
theorem InitPlugin_start (avg : Option AvgStat) (cpus : Nat) :
    InitPlugin (exampleEnv avg cpus) mainConfigText State.start = Except.ok (initState cpus) := by
  simp [InitPlugin, MustRegister, jsonUnmarshal, exampleEnv, State.start, initState,
    GoMap.isNil, bind, Except.bind, pure, Except.pure]

/-- C5, as stated, fails: on one core, with the sample `Load1 = 0.07` (the binary64
value `1261007895663739 / 2 ^ 54`), `PluginMeasure` stores
`load1m = 7.000000000000001` (the binary64 value `7 + 2 ^ (-50)`), which is not
the exact `100 * Load1 / 1`. -/
theorem PluginMeasure_normalisation_not_exact :
    (1 : Int) ≤ (initState 1).NumCpus ∧
    ∃ (r : Bytes × Bytes × F64) (st2 : State),
      PluginMeasure (exampleEnv (some ⟨F64.fin (1261007895663739 / 18014398509481984),
        F64.fin 0, F64.fin 0⟩) 1) (initState 1) = Except.ok (r, st2) ∧
      st2.PluginData.index "load1m" =
        Iface.float64 (F64.fin (7881299347898369 / 1125899906842624)) ∧
      st2.PluginData.index "load1m" ≠
        Iface.float64 (F64.fin (100 * (1261007895663739 / 18014398509481984) / 1)) := by
  have hmul : F64.mul (F64.fin 100) (F64.fin (1261007895663739 / 18014398509481984)) =
      F64.fin (7881299347898369 / 1125899906842624) :=
    F64.round_eval _ _ 31525197391593475 4503599627370496 7881299347898369 50
      (by norm_num) (by decide) (by decide) (by norm_num) (by decide)
      (by decide) (by norm_num) (by norm_num)
  have hone : F64.ofInt (1 : Nat) = F64.fin 1 :=
    F64.round_eval _ _ 1 1 (2 ^ 52) 52
      (by norm_num) (by decide) (by decide) (by norm_num) (by decide)
      (by decide) (by norm_num) (by norm_num)
  have hdiv : F64.div (F64.fin (7881299347898369 / 1125899906842624)) (F64.fin 1) =
      F64.fin (7881299347898369 / 1125899906842624) := by
    have h : F64.round (7881299347898369 / 1125899906842624 / 1) =
        F64.fin (7881299347898369 / 1125899906842624) :=
      F64.round_eval _ _ 7881299347898369 1125899906842624 7881299347898369 50
        (by norm_num) (by decide) (by decide) (by norm_num) (by decide)
        (by decide) (by norm_num) (by norm_num)
    simpa [F64.div] using h
  have hidx := (measuredEntries_index ⟨F64.fin (1261007895663739 / 18014398509481984),
    F64.fin 0, F64.fin 0⟩ ⟨1, 0, 0⟩ (initState 1).NumCpus []).1
  refine ⟨by decide, _, _,
    PluginMeasure_data _ (initState 1) ⟨F64.fin (1261007895663739 / 18014398509481984),
      F64.fin 0, F64.fin 0⟩ ⟨1, 0, 0⟩ [] rfl rfl rfl, ?_, ?_⟩
  · show (GoMap.mk _).index "load1m" = _
    rw [hidx]
    simp only [initState, hmul, hone, hdiv]
  · show (GoMap.mk _).index "load1m" ≠ _
    rw [hidx]
    simp only [initState, hmul, hone, hdiv]
    norm_num

/-- C5, amended. Normalisation in binary64 arithmetic: for every finite raw sample
`(q1, q5, q15)` and every core count `n ≥ 1`, `PluginMeasure` returns and the data
map then holds, for each window, the product `100 * q` rounded to binary64,
divided by `n` converted to binary64, the quotient rounded again. When the
conversion of `n` is exact, a window whose product and quotient are binary64
values holds `100 * q / n` exactly. -/
theorem PluginMeasure_normalisation (env : Env) (st : State) (m : MiscStat)
    (l : List (String × Iface)) (q1 q5 q15 : ℚ)
    (ha : env.loadAvg = some ⟨F64.fin q1, F64.fin q5, F64.fin q15⟩)
    (hm : env.loadMisc = some m) (hd : st.PluginData = GoMap.mk l)
    (hn : 1 ≤ st.NumCpus) :
    ∃ (r : Bytes × Bytes × F64) (st2 : State), PluginMeasure env st = Except.ok (r, st2) ∧
      st2.PluginData.index "load1m" =
        Iface.float64 (F64.div (F64.round (100 * q1)) (F64.round st.NumCpus)) ∧
      st2.PluginData.index "load5m" =
        Iface.float64 (F64.div (F64.round (100 * q5)) (F64.round st.NumCpus)) ∧
      st2.PluginData.index "load15m" =
        Iface.float64 (F64.div (F64.round (100 * q15)) (F64.round st.NumCpus)) ∧
      (F64.round st.NumCpus = F64.fin st.NumCpus →
        (F64.round (100 * q1) = F64.fin (100 * q1) →
          F64.round (100 * q1 / st.NumCpus) = F64.fin (100 * q1 / st.NumCpus) →
          st2.PluginData.index "load1m" = Iface.float64 (F64.fin (100 * q1 / st.NumCpus))) ∧
        (F64.round (100 * q5) = F64.fin (100 * q5) →
          F64.round (100 * q5 / st.NumCpus) = F64.fin (100 * q5 / st.NumCpus) →
          st2.PluginData.index "load5m" = Iface.float64 (F64.fin (100 * q5 / st.NumCpus))) ∧
        (F64.round (100 * q15) = F64.fin (100 * q15) →
          F64.round (100 * q15 / st.NumCpus) = F64.fin (100 * q15 / st.NumCpus) →
          st2.PluginData.index "load15m" =
            Iface.float64 (F64.fin (100 * q15 / st.NumCpus)))) := by
  have hne : ((st.NumCpus : Int) : ℚ) ≠ 0 := by
    have : (0 : ℚ) < ((st.NumCpus : Int) : ℚ) := by exact_mod_cast hn
    exact ne_of_gt this
  obtain ⟨h1, h5, h15, -⟩ := measuredEntries_index ⟨F64.fin q1, F64.fin q5, F64.fin q15⟩ m
    st.NumCpus l
  simp only [F64.mul, F64.ofInt] at h1 h5 h15
  refine ⟨_, _, PluginMeasure_data env st _ m l ha hm hd, h1, h5, h15, ?_⟩
  intro hcpu
  refine ⟨?_, ?_, ?_⟩
  · intro hp hq
    show (GoMap.mk _).index "load1m" = _
    rw [h1, hp, hcpu]
    simp [F64.div, hne, hq]
  · intro hp hq
    show (GoMap.mk _).index "load5m" = _
    rw [h5, hp, hcpu]
    simp [F64.div, hne, hq]
  · intro hp hq
    show (GoMap.mk _).index "load15m" = _
    rw [h15, hp, hcpu]
    simp [F64.div, hne, hq]

theorem PluginMeasure_normalisation_witness :
    ∃ (r : Bytes × Bytes × F64) (st2 : State),
      PluginMeasure (exampleEnv (some ⟨F64.fin 2, F64.fin 1, F64.fin (1 / 2)⟩) 4) (initState 4) =
        Except.ok (r, st2) ∧
      st2.PluginData.index "load1m" = Iface.float64 (F64.fin 50) ∧
      st2.PluginData.index "load5m" = Iface.float64 (F64.fin 25) ∧
      st2.PluginData.index "load15m" = Iface.float64 (F64.fin (25 / 2)) := by
  obtain ⟨r, st2, hrun, -, -, -, hexact⟩ := PluginMeasure_normalisation
    (exampleEnv (some ⟨F64.fin 2, F64.fin 1, F64.fin (1 / 2)⟩) 4) (initState 4) ⟨1, 0, 0⟩ []
    2 1 (1 / 2) rfl rfl rfl (by decide)
  have hcpu : F64.round ((initState 4).NumCpus : ℚ) = F64.fin ((initState 4).NumCpus : ℚ) :=
    F64.round_eval _ _ 4 1 (4 * 2 ^ 50) 50
      (by norm_num [initState]) (by decide) (by decide) (by norm_num) (by decide)
      (by decide) (by norm_num [initState]) (by norm_num [initState])
  obtain ⟨e1, e5, e15⟩ := hexact hcpu
  have h1 := e1
    (F64.round_eval _ _ 200 1 (200 * 2 ^ 45) 45
      (by norm_num) (by decide) (by decide) (by norm_num) (by decide)
      (by decide) (by norm_num) (by norm_num))
    (F64.round_eval _ _ 50 1 (50 * 2 ^ 47) 47
      (by norm_num [initState]) (by decide) (by decide) (by norm_num) (by decide)
      (by decide) (by norm_num [initState]) (by norm_num [initState]))
  have h5 := e5
    (F64.round_eval _ _ 100 1 (100 * 2 ^ 46) 46
      (by norm_num) (by decide) (by decide) (by norm_num) (by decide)
      (by decide) (by norm_num) (by norm_num))
    (F64.round_eval _ _ 25 1 (25 * 2 ^ 48) 48
      (by norm_num [initState]) (by decide) (by decide) (by norm_num) (by decide)
      (by decide) (by norm_num [initState]) (by norm_num [initState]))
  have h15 := e15
    (F64.round_eval _ _ 50 1 (50 * 2 ^ 47) 47
      (by norm_num) (by decide) (by decide) (by norm_num) (by decide)
      (by decide) (by norm_num) (by norm_num))
    (F64.round_eval _ _ 25 2 (25 * 2 ^ 48) 49
      (by norm_num [initState]) (by decide) (by decide) (by norm_num) (by decide)
      (by decide) (by norm_num [initState]) (by norm_num [initState]))
  refine ⟨r, st2, hrun, ?_, ?_, ?_⟩
  · rw [h1]; norm_num [initState]
  · rw [h5]; norm_num [initState]
  · rw [h15]; norm_num [initState]

/-- C6, as stated, fails: after `InitPlugin` on a host whose CPU enumeration is
empty `NumCpus` is 0, and `PluginMeasure` with the sample `(2, 1, 1/2)` then
stores `load1m = +Inf`, not `100 * 2`: the core count is not clamped to 1. -/
theorem PluginMeasure_zero_cores_not_clamped :
    InitPlugin (exampleEnv (some ⟨F64.fin 2, F64.fin 1, F64.fin (1 / 2)⟩) 0) mainConfigText
        State.start = Except.ok (initState 0) ∧
    (initState 0).NumCpus = 0 ∧
    ∃ (r : Bytes × Bytes × F64) (st2 : State),
      PluginMeasure (exampleEnv (some ⟨F64.fin 2, F64.fin 1, F64.fin (1 / 2)⟩) 0) (initState 0) =
        Except.ok (r, st2) ∧
      st2.PluginData.index "load1m" = Iface.float64 F64.pinf ∧
      st2.PluginData.index "load1m" ≠ Iface.float64 (F64.fin (100 * 2)) := by
  have hmul : F64.mul (F64.fin 100) (F64.fin 2) = F64.fin 200 :=
    F64.round_eval _ _ 200 1 (200 * 2 ^ 45) 45
      (by norm_num) (by decide) (by decide) (by norm_num) (by decide)
      (by decide) (by norm_num) (by norm_num)
  have hzero : F64.ofInt 0 = F64.fin 0 := by simp [F64.ofInt, F64.round]
  have hidx := (measuredEntries_index ⟨F64.fin 2, F64.fin 1, F64.fin (1 / 2)⟩ ⟨1, 0, 0⟩
    (initState 0).NumCpus []).1
  refine ⟨InitPlugin_start _ 0, rfl, _, _,
    PluginMeasure_data _ (initState 0) ⟨F64.fin 2, F64.fin 1, F64.fin (1 / 2)⟩ ⟨1, 0, 0⟩ []
      rfl rfl rfl, ?_, ?_⟩
  · show (GoMap.mk _).index "load1m" = _
    rw [hidx]
    simp [initState, hmul, hzero, F64.div]
  · show (GoMap.mk _).index "load1m" ≠ _
    rw [hidx]
    simp [initState, hmul, hzero, F64.div]

/-- C6, amended. No clamp: for every finite raw sample and every core count
`n < 1`, `PluginMeasure` returns without a fault and divides by `n` itself, as it
does for `n ≥ 1`: each window holds the rounded product `100 * q` divided by `n`
converted to binary64. For `n = 0` a window whose rounded product is `p` holds
`+Inf` when `p > 0`, `-Inf` when `p < 0` and NaN when `p = 0`. -/
theorem PluginMeasure_small_core_count (env : Env) (st : State) (m : MiscStat)
    (l : List (String × Iface)) (q1 q5 q15 : ℚ)
    (ha : env.loadAvg = some ⟨F64.fin q1, F64.fin q5, F64.fin q15⟩)
    (hm : env.loadMisc = some m) (hd : st.PluginData = GoMap.mk l)
    (_hn : st.NumCpus < 1) :
    ∃ (r : Bytes × Bytes × F64) (st2 : State), PluginMeasure env st = Except.ok (r, st2) ∧
      st2.PluginData.index "load1m" =
        Iface.float64 (F64.div (F64.round (100 * q1)) (F64.round st.NumCpus)) ∧
      st2.PluginData.index "load5m" =
        Iface.float64 (F64.div (F64.round (100 * q5)) (F64.round st.NumCpus)) ∧
      st2.PluginData.index "load15m" =
        Iface.float64 (F64.div (F64.round (100 * q15)) (F64.round st.NumCpus)) ∧
      (st.NumCpus = 0 → ∀ p1 p5 p15 : ℚ, F64.round (100 * q1) = F64.fin p1 →
        F64.round (100 * q5) = F64.fin p5 → F64.round (100 * q15) = F64.fin p15 →
        st2.PluginData.index "load1m" = Iface.float64
          (if 0 < p1 then F64.pinf else if p1 < 0 then F64.ninf else F64.nan) ∧
        st2.PluginData.index "load5m" = Iface.float64
          (if 0 < p5 then F64.pinf else if p5 < 0 then F64.ninf else F64.nan) ∧
        st2.PluginData.index "load15m" = Iface.float64
          (if 0 < p15 then F64.pinf else if p15 < 0 then F64.ninf else F64.nan)) := by
  obtain ⟨h1, h5, h15, -⟩ := measuredEntries_index ⟨F64.fin q1, F64.fin q5, F64.fin q15⟩ m
    st.NumCpus l
  simp only [F64.mul, F64.ofInt] at h1 h5 h15
  refine ⟨_, _, PluginMeasure_data env st _ m l ha hm hd, h1, h5, h15, ?_⟩
  intro h0 p1 p5 p15 hp1 hp5 hp15
  have hz : F64.round ((st.NumCpus : Int) : ℚ) = F64.fin 0 := by simp [h0, F64.round]
  refine ⟨?_, ?_, ?_⟩
  · show (GoMap.mk _).index "load1m" = _
    rw [h1, hp1, hz]
    simp [F64.div]
  · show (GoMap.mk _).index "load5m" = _
    rw [h5, hp5, hz]
    simp [F64.div]
  · show (GoMap.mk _).index "load15m" = _
    rw [h15, hp15, hz]
    simp [F64.div]

theorem PluginMeasure_small_core_count_witness :
    (initState 0).NumCpus < 1 ∧
    ∃ (r : Bytes × Bytes × F64) (st2 : State),
      PluginMeasure (exampleEnv (some ⟨F64.fin 2, F64.fin 0, F64.fin (1 / 2)⟩) 0) (initState 0) =
        Except.ok (r, st2) ∧
      st2.PluginData.index "load1m" = Iface.float64 F64.pinf ∧
      st2.PluginData.index "load5m" = Iface.float64 F64.nan ∧
      st2.PluginData.index "load15m" = Iface.float64 F64.pinf := by
  have hn : (initState 0).NumCpus < 1 := by decide
  obtain ⟨r, st2, hrun, -, -, -, hzero⟩ := PluginMeasure_small_core_count
    (exampleEnv (some ⟨F64.fin 2, F64.fin 0, F64.fin (1 / 2)⟩) 0) (initState 0) ⟨1, 0, 0⟩ []
    2 0 (1 / 2) rfl rfl rfl hn
  obtain ⟨h1, h5, h15⟩ := hzero rfl 200 0 50
    (F64.round_eval _ _ 200 1 (200 * 2 ^ 45) 45
      (by norm_num) (by decide) (by decide) (by norm_num) (by decide)
      (by decide) (by norm_num) (by norm_num))
    (by simp [F64.round])
    (F64.round_eval _ _ 50 1 (50 * 2 ^ 47) 47
      (by norm_num) (by decide) (by decide) (by norm_num) (by decide)
      (by decide) (by norm_num) (by norm_num))
  refine ⟨hn, r, st2, hrun, ?_, ?_, ?_⟩
  · rw [h1]; norm_num
  · rw [h5]; norm_num
  · rw [h15]; norm_num

/-- C7. USE mapping: for every raw sample and core count, and whatever the data
map held before, after `PluginMeasure` the entries `use`, `load`, `saturation`
and `throughput` all equal the entry `load1m` of the same snapshot,
`throughputmax` is 100, `errors` is 0 and `latency` is 0. -/
theorem PluginMeasure_use_mapping (env : Env) (st : State) (a : AvgStat) (m : MiscStat)
    (l : List (String × Iface))
    (ha : env.loadAvg = some a) (hm : env.loadMisc = some m)
    (hd : st.PluginData = GoMap.mk l) :
    ∃ (r : Bytes × Bytes × F64) (st2 : State) (x : F64),
      PluginMeasure env st = Except.ok (r, st2) ∧
      st2.PluginData.index "load1m" = Iface.float64 x ∧
      st2.PluginData.index "use" = Iface.float64 x ∧
      st2.PluginData.index "load" = Iface.float64 x ∧
      st2.PluginData.index "saturation" = Iface.float64 x ∧
      st2.PluginData.index "throughput" = Iface.float64 x ∧
      st2.PluginData.index "throughputmax" = Iface.float64 (F64.fin 100) ∧
      st2.PluginData.index "errors" = Iface.float64 (F64.fin 0) ∧
      st2.PluginData.index "latency" = Iface.float64 (F64.fin 0) := by
  obtain ⟨h1, -, -, hu, hl, hs, ht, htm, he, hlat⟩ := measuredEntries_index a m st.NumCpus l
  exact ⟨_, _, _, PluginMeasure_data env st a m l ha hm hd, h1, hu, hl, hs, ht, htm, he, hlat⟩

theorem PluginMeasure_use_mapping_witness :
    ∃ (r : Bytes × Bytes × F64) (st2 : State) (x : F64),
      PluginMeasure (exampleEnv (some ⟨F64.fin 2, F64.fin 1, F64.fin (1 / 2)⟩) 4)
        (stateWithSnapshot 90) = Except.ok (r, st2) ∧
      st2.PluginData.index "load1m" = Iface.float64 x ∧
      st2.PluginData.index "use" = Iface.float64 x ∧
      st2.PluginData.index "load" = Iface.float64 x ∧
      st2.PluginData.index "saturation" = Iface.float64 x ∧
      st2.PluginData.index "throughput" = Iface.float64 x ∧
      st2.PluginData.index "throughputmax" = Iface.float64 (F64.fin 100) ∧
      st2.PluginData.index "errors" = Iface.float64 (F64.fin 0) ∧
      st2.PluginData.index "latency" = Iface.float64 (F64.fin 0) :=
  PluginMeasure_use_mapping (exampleEnv (some ⟨F64.fin 2, F64.fin 1, F64.fin (1 / 2)⟩) 4)
    (stateWithSnapshot 90) ⟨F64.fin 2, F64.fin 1, F64.fin (1 / 2)⟩ ⟨1, 0, 0⟩ _ rfl rfl rfl

/-- C8 fails on the code. When `load.Avg` returns no sample (a nil pointer, with
its error discarded), `PluginMeasure` panics on the indirection `*lavg`, from
every state and whatever the other calls return: it returns no snapshot. -/
theorem PluginMeasure_sampling_failure_panics (env : Env) (st : State) :
    PluginMeasure { env with loadAvg := none } st = Except.error Panic.nilDereference := by
  simp [PluginMeasure, deref, bind, Except.bind]

/-! ## InitPlugin -/

/-- A second registration of the gauge families panics: `InitPlugin` does not
return when `loadIndicator` is already registered. -/
theorem InitPlugin_registered_panics (env : Env) (text : String) (st : State)
    (h : "sreagent_load_metrics" ∈ st.registered) :
    InitPlugin env text st = Except.error Panic.alreadyRegistered := by
  obtain ⟨cfg, data, n, g, reg, lg⟩ := st
  cases cfg <;> cases data <;>
    simp_all [InitPlugin, MustRegister, GoMap.isNil, bind, Except.bind]

/-- C10, as stated, fails: from the state a first `InitPlugin` leaves (the
configuration of `main` loaded), a second `InitPlugin` with a text that is not
well-formed JSON does not return: it panics at the registration of the gauge
family, before the text is parsed. -/
theorem InitPlugin_again_panics :
    InitPlugin (exampleEnv none 4) mainConfigText State.start = Except.ok (initState 4) ∧
    (initState 4).PluginConfig = mainConfig ∧
    (exampleEnv none 4).jsonValid "\x7b\"alert\":" = false ∧
    InitPlugin (exampleEnv none 4) "\x7b\"alert\":" (initState 4) =
      Except.error Panic.alreadyRegistered ∧
    ¬ ∃ st2 : State,
      InitPlugin (exampleEnv none 4) "\x7b\"alert\":" (initState 4) = Except.ok st2 := by
  have hpanic : InitPlugin (exampleEnv none 4) "\x7b\"alert\":" (initState 4) =
      Except.error Panic.alreadyRegistered :=
    InitPlugin_registered_panics _ _ _ (by simp [initState])
  refine ⟨InitPlugin_start none 4, rfl, by simp [exampleEnv, mainConfigText], hpanic, ?_⟩
  rintro ⟨st2, h⟩
  rw [hpanic] at h
  exact Except.noConfusion h

/-- C10, amended. Config parse failure is atomic, and non-fatal on a first
initialisation: for every prior state and every text the JSON syntax check
rejects, `InitPlugin` returns normally exactly when neither of its two gauge
families is registered yet, and whenever it returns, `PluginConfig` is its prior
value when that was an allocated map and the empty map when it was nil. -/
theorem InitPlugin_malformed_config (env : Env) (text : String) (st : State)
    (hbad : env.jsonValid text = false) :
    ((∃ st2 : State, InitPlugin env text st = Except.ok st2) ↔
      ("sreagent_load_metrics" ∉ st.registered ∧ "sreagent_load_average" ∉ st.registered)) ∧
    (∀ st2 : State, InitPlugin env text st = Except.ok st2 →
      (∀ c, st.PluginConfig = GoMap.mk c → st2.PluginConfig = GoMap.mk c) ∧
      (st.PluginConfig = GoMap.nil → st2.PluginConfig = GoMap.mk [])) := by
  have hne : ¬ "sreagent_load_average" = "sreagent_load_metrics" := by decide
  obtain ⟨cfg, data, n, g, reg, lg⟩ := st
  by_cases h1 : "sreagent_load_metrics" ∈ reg
  · cases cfg <;> cases data <;>
      simp_all [InitPlugin, MustRegister, GoMap.isNil, bind, Except.bind]
  · by_cases h2 : "sreagent_load_average" ∈ reg
    · cases cfg <;> cases data <;>
        simp_all [InitPlugin, MustRegister, GoMap.isNil, bind, Except.bind]
    · cases cfg <;> cases data <;>
        simp_all [InitPlugin, MustRegister, jsonUnmarshal, GoMap.isNil, bind, Except.bind,
          pure, Except.pure]

theorem InitPlugin_malformed_config_witness :
    (exampleEnv none 4).jsonValid "\x7b\"alert\":" = false ∧
    (∃ st2 : State,
      InitPlugin (exampleEnv none 4) "\x7b\"alert\":" { State.start with PluginConfig := mainConfig } =
        Except.ok st2 ∧ st2.PluginConfig = mainConfig) ∧
    (∃ st2 : State,
      InitPlugin (exampleEnv none 4) "\x7b\"alert\":" State.start = Except.ok st2 ∧
        st2.PluginConfig = GoMap.mk []) := by
  have hbad : (exampleEnv none 4).jsonValid "\x7b\"alert\":" = false := by
    simp [exampleEnv, mainConfigText]
  refine ⟨hbad, ?_, ?_⟩
  · obtain ⟨hiff, hkeep⟩ := InitPlugin_malformed_config (exampleEnv none 4)
      "\x7b\"alert\":" { State.start with PluginConfig := mainConfig } hbad
    obtain ⟨st2, hrun⟩ := hiff.2 ⟨by simp [State.start], by simp [State.start]⟩
    exact ⟨st2, hrun, (hkeep st2 hrun).1 _ rfl⟩
  · obtain ⟨hiff, hkeep⟩ := InitPlugin_malformed_config (exampleEnv none 4)
      "\x7b\"alert\":" State.start hbad
    obtain ⟨st2, hrun⟩ := hiff.2 ⟨by simp [State.start], by simp [State.start]⟩
    exact ⟨st2, hrun, (hkeep st2 hrun).2 rfl⟩

end PluginLoad
